import Mathlib

set_option maxRecDepth 100000

/-!
Shallow embedding of `src/ipk-mtrip.cc` (ipk-proj2): a UDP bandwidth
measurement tool with two runtime modes, a reflector and a meter, plus an
argument parser and an interrupt handler.  Bytes are modelled as `Nat`,
buffers as `List Nat`, C strings as Lean `String`, wall-clock time as `ℚ`.
The repository headers `ipk-mtrip.h` and `ipk-socket.h` are not in the
source tree; the socket primitives they declare are modelled from the
spec's Channel contract and are marked as such.
-/

namespace MTrip

/-- A C `char`/octet, modelled as a natural number. -/
abbrev Byte := Nat

/-! ### libc fragments used by the program -/

/-- C `isspace` on the characters `atoi`/`atof` skip. -/
def cIsSpace (c : Char) : Bool :=
  c = ' ' || c = '\t' || c = '\n' || c = '\x0b' || c = '\x0c' || c = '\x0d'

/-- C `isdigit`. -/
def cIsDigit (c : Char) : Bool :=
  48 ≤ c.toNat && c.toNat ≤ 57

/-- C `isprint`: printable characters are codes 32 to 126. -/
def cIsPrint (c : Char) : Bool :=
  32 ≤ c.toNat && c.toNat ≤ 126

/-- Value of a string of decimal digits. -/
def digitsVal (cs : List Char) : Nat :=
  cs.foldl (fun a c => a * 10 + (c.toNat - 48)) 0

/-- C `atoi`: skip leading whitespace, optional sign, maximal digit prefix;
any other input contributes 0.  (Overflow of `int` is undefined behaviour in
C and is not modelled; the program only receives small port/size literals.) -/
def atoi (s : String) : Int :=
  let cs := s.toList.dropWhile cIsSpace
  match cs with
  | '-' :: r => -(digitsVal (r.takeWhile cIsDigit) : Int)
  | '+' :: r => (digitsVal (r.takeWhile cIsDigit) : Int)
  | _ => (digitsVal (cs.takeWhile cIsDigit) : Int)

/-- C `atof`, restricted to plain decimal literals `[+-]digits[.digits]`
(exponent forms are not used by any input considered here), as an exact
rational. -/
def atof (s : String) : ℚ :=
  let cs := s.toList.dropWhile cIsSpace
  let signNeg : Bool :=
    match cs with
    | '-' :: _ => true
    | _ => false
  let cs2 : List Char :=
    match cs with
    | '-' :: r => r
    | '+' :: r => r
    | _ => cs
  let intPart := cs2.takeWhile cIsDigit
  let rest := cs2.dropWhile cIsDigit
  let fracPart :=
    match rest with
    | '.' :: r => r.takeWhile cIsDigit
    | _ => []
  let n : Nat := digitsVal intPart * 10 ^ fracPart.length + digitsVal fracPart
  if signNeg then mkRat (-(n : Int)) (10 ^ fracPart.length)
  else mkRat (n : Int) (10 ^ fracPart.length)

/-- C conversion of `int` to `unsigned int` (modular, 32 bits). -/
def cUInt (i : Int) : Nat := (i.emod (2 ^ 32)).toNat

/-- C conversion of `int` to `unsigned short` via `unsigned int`
(`port = static_cast<unsigned int>(atoi(optarg))` stored in an
`unsigned short`): modular, 16 bits. -/
def cUShort (i : Int) : Nat := (i.emod (2 ^ 16)).toNat

/-- C conversion of `int` to `size_t` (modular, 64 bits). -/
def cSizeT (i : Int) : Nat := (i.emod (2 ^ 64)).toNat

/-! ### getopt

The program calls GNU `getopt` with option strings `"h:p:s:t:"` (meter) and
`"p:"` (reflector): every recognised option requires an argument.  The model
below produces the sequence of events the `while ((c = getopt(...)) != -1)`
loop observes.  GNU `getopt` permutes non-option arguments past the scan, an
option character may carry its argument in the same element (`-p9000`) or
take the following element verbatim, a trailing option with no following
element yields `'?'` with `optopt` set, and `--` ends the scan.  An element
whose first option character is unrecognised yields `'?'` with `optopt` set;
`argument_parser` calls `exit(1)` on every `'?'`, so later events of such an
element are never observed and are not modelled. -/

/-- One value returned by a `getopt` call, as seen by the option loop. -/
inductive GetoptEvent
  | opt (c : Char) (arg : String)
  | missingArg (c : Char)
  | unknown (c : Char)
  deriving DecidableEq, Repr

/-- Event sequence of the `getopt` loop over the argument list that follows
the mode word, for an option set `opts` in which every option requires an
argument. -/
def getoptEvents (opts : List Char) : List String → List GetoptEvent
  | [] => []
  | a :: rest =>
    if a = "--" then []
    else
      match a.toList with
      | '-' :: c :: cs =>
        if c ∈ opts then
          if cs.isEmpty then
            match rest with
            | [] => [.missingArg c]
            | b :: rs => .opt c b :: getoptEvents opts rs
          else
            .opt c (String.mk cs) :: getoptEvents opts rest
        else
          [.unknown c]
      | _ => getoptEvents opts rest

/-! ### argument_parser (src/ipk-mtrip.cc:163-284) -/

/-- Outcome of `argument_parser`:
either a constructed configuration (`Meter(host, port, probe_size, time)` or
`Reflector(port)`), or `nullptr` after printing a diagnostic to `stderr`
(`noConfig`), or a direct `exit(1)` from the `'?'`/`default` branches of the
option switch (`exitNow`). -/
inductive ParseResult
  | meterCfg (hostName : String) (port : Nat) (probeSize : Nat) (time : ℚ)
  | reflectCfg (port : Nat)
  | noConfig (diag : String)
  | exitNow (diag : String)
  deriving DecidableEq, Repr

/-- Diagnostic of the unknown-option branches (src/ipk-mtrip.cc:211-214 and
255-258). -/
def unknownOptionDiag (c : Char) : String :=
  if cIsPrint c then "Uknown option \x27-" ++ String.mk [c] ++ "\x27"
  else "Unknown option character. "

/-- Meter option state: the four flag/value pairs of the meter branch
(src/ipk-mtrip.cc:180-186). -/
structure MeterOpts where
  hVal : Option String := none
  pVal : Option Nat := none
  sVal : Option Nat := none
  tVal : Option ℚ := none
  deriving DecidableEq, Repr

/-- One step of the meter-mode option switch (src/ipk-mtrip.cc:188-221):
`h/p/s/t` record the (converted) option value; `'?'` with `optopt` in the
option set prints the requires-an-argument diagnostic and exits, other `'?'`
prints the unknown-option diagnostic and exits; the `default` branch exits. -/
def meterApply (st : MeterOpts) : GetoptEvent → Except String MeterOpts
  | .opt 'h' a => .ok { st with hVal := some a }
  | .opt 'p' a => .ok { st with pVal := some (cUShort (atoi a)) }
  | .opt 's' a => .ok { st with sVal := some (cSizeT (atoi a)) }
  | .opt 't' a => .ok { st with tVal := some (atof a) }
  | .opt _ _ => .error "uknown getopt() error"
  | .missingArg c =>
      if c = 'h' || c = 'p' || c = 's' || c = 't' then
        .error ("Option -" ++ String.mk [c] ++ " requires an argument.")
      else
        .error (unknownOptionDiag c)
  | .unknown c => .error (unknownOptionDiag c)

/-- One step of the reflect-mode option switch (src/ipk-mtrip.cc:244-265). -/
def reflectApply (st : Option Nat) : GetoptEvent → Except String (Option Nat)
  | .opt 'p' a => .ok (some (cUInt (atoi a)))
  | .opt _ _ => .error "uknown getopt() error"
  | .missingArg c =>
      if c = 'p' then .error "Option -p requires an argument."
      else .error (unknownOptionDiag c)
  | .unknown c => .error (unknownOptionDiag c)

/-- The program's argument parser (src/ipk-mtrip.cc:163-284).  `args` is the
full `argv` including the program name.  Fewer than 4 arguments are rejected
up front; then the word at `argv[1]` selects the mode, the `getopt` loop
runs over the remaining arguments, and a configuration is produced only when
every required flag was seen. -/
def argumentParse (args : List String) : ParseResult :=
  if args.length < 4 then .noConfig "Wrong number of arguments."
  else
    match args with
    | _ :: mode :: rest =>
      if mode = "meter" then
        match (getoptEvents ['h', 'p', 's', 't'] rest).foldlM meterApply {} with
        | .error d => .exitNow d
        | .ok st =>
          match st.hVal, st.pVal, st.sVal, st.tVal with
          | some hv, some pv, some sv, some tv => .meterCfg hv pv sv tv
          | _, _, _, _ => .noConfig "Not all argument options passed in."
      else if mode = "reflect" then
        match (getoptEvents ['p'] rest).foldlM reflectApply none with
        | .error d => .exitNow d
        | .ok (some pv) => .reflectCfg pv
        | .ok none => .noConfig "Required option not passed in."
      else
        .noConfig "Undefined mode inside an argument passed to the application."
    | _ => .noConfig "Wrong number of arguments."

/-! ### main and the interrupt handler (src/ipk-mtrip.cc:62-77, 149-153) -/

/-- glibc `EXIT_SUCCESS`. -/
def EXIT_SUCCESS : Nat := 0

/-- glibc `EXIT_FAILURE`. -/
def EXIT_FAILURE : Nat := 1

/-- How the process proceeds from `main`: it either exits with a code
(parse failure returns `EXIT_FAILURE` from `main`; the `'?'`/`default`
branches call `exit(1)` inside the parser) or enters `mtrip->init()`, whose
loops never return control to `main`. -/
inductive ProcOutcome
  | exited (code : Nat)
  | enteredInit
  deriving DecidableEq, Repr

/-- `main` (src/ipk-mtrip.cc:62-77): a null configuration yields
`EXIT_FAILURE`; an `exit(1)` inside the parser ends the process with code 1;
otherwise `init()` is entered. -/
def mainOutcome (args : List String) : ProcOutcome :=
  match argumentParse args with
  | .noConfig _ => .exited EXIT_FAILURE
  | .exitNow _ => .exited 1
  | .meterCfg _ _ _ _ => .enteredInit
  | .reflectCfg _ => .enteredInit

/-- `interrupt_handler` (src/ipk-mtrip.cc:149-153): prints a message and
calls `exit(EXIT_SUCCESS)` whatever the signal number. -/
def interruptExitCode (signum : Nat) : Nat := EXIT_SUCCESS

/-! ### Socket primitives

`ipk-socket.h` is not in the source tree; only the call sites in
`ipk-mtrip.cc` are.  The two primitives the loops use are modelled from the
spec's Channel contract (§4.1). -/

/-- Modelled from the spec: `SocketEntity::recv_message(buf, len)` (declared
in the missing `ipk-socket.h`).  Per the Channel contract, `receive` yields
the datagram's bytes; delivered through a caller-supplied buffer of capacity
`len`, the first `min |datagram| len` bytes are written into the buffer (a
longer datagram is truncated to `len` bytes) and the rest of the buffer
keeps its previous contents.  Returns the buffer after the call. -/
def recvMessage (buffer : List Byte) (len : Nat) (datagram : List Byte) :
    List Byte :=
  datagram.take len ++ buffer.drop (min datagram.length len)

/-- Modelled from the spec: `SocketEntity::send_message(buf, len)` (declared
in the missing `ipk-socket.h`).  Per the Channel contract, `send(bytes)`
"transmits exactly `bytes.length` octets": the transmitted datagram is the
first `len` bytes of the buffer. -/
def sendMessage (buffer : List Byte) (len : Nat) : List Byte :=
  buffer.take len

/-! ### Reflector::init (src/ipk-mtrip.cc:86-103) -/

/-- One iteration of the reflector loop (src/ipk-mtrip.cc:98-102) over the
512-byte stack buffer `char buffer[512]`: receive a datagram into the
buffer, then send `sizeof(buffer)` = 512 bytes from it.  Returns the echoed
datagram and the buffer left for the next iteration. -/
def reflectorIteration (buffer : List Byte) (datagram : List Byte) :
    List Byte × List Byte :=
  let buf := recvMessage buffer 512 datagram
  (sendMessage buf 512, buf)

/-! ### Meter::init (src/ipk-mtrip.cc:112-141) -/

/-- Contents of the probe buffer `char buffer[m_probe_size]` after the
`bzero` and the `fgets(buffer, m_probe_size, stdin)` of one meter iteration
(src/ipk-mtrip.cc:127-129): the buffer is zero-filled, then `fgets` writes
at most `probe_size - 1` characters of the operator's line followed by a NUL
(= 0, coinciding with the zero fill).  `line` is the character sequence
`fgets` consumes this iteration (ending with the newline). -/
def meterSendBuffer (probeSize : Nat) (line : List Byte) : List Byte :=
  let written := line.take (probeSize - 1)
  written ++ (List.replicate probeSize 0).drop written.length

/-- The datagram the meter sends each iteration (src/ipk-mtrip.cc:131):
`socket->send_message(buffer, sizeof(buffer))`, where `sizeof(buffer)` of
the variable-length array `char buffer[m_probe_size]` is `m_probe_size`. -/
def meterSentDatagram (probeSize : Nat) (line : List Byte) : List Byte :=
  sendMessage (meterSendBuffer probeSize line) probeSize

/-- Contents of the probe buffer after the second `bzero` and the
`recv_message` of one meter iteration (src/ipk-mtrip.cc:133-135). -/
def meterRecvBuffer (probeSize : Nat) (echoDatagram : List Byte) :
    List Byte :=
  recvMessage (List.replicate probeSize 0) probeSize echoDatagram

/-- Printing a `char` buffer with `cout <<` reads it as a NUL-terminated C
string. -/
def cDisplay (buffer : List Byte) : String :=
  String.mk ((buffer.takeWhile (· ≠ 0)).map Char.ofNat)

/-- What one meter iteration prints to standard output
(src/ipk-mtrip.cc:128 and 137): the prompt, then the feedback line showing
the received echo. -/
def meterIterationOutput (probeSize : Nat) (echoDatagram : List Byte) :
    List String :=
  ["Please enter msg: ",
   "Feedback: " ++ cDisplay (meterRecvBuffer probeSize echoDatagram)]

/-- What `Meter::init` executes after its `while` loop
(src/ipk-mtrip.cc:140-141): only `(void)m_measurment_time;` — nothing is
printed, in particular no bandwidth estimate and no `inconclusive`
diagnostic exists anywhere in the function. -/
def meterPostLoopOutput : List String := []

/-- Observable state carried across meter loop iterations: the probe
buffer, the wall-clock time elapsed since the run started, the datagrams
sent so far and the lines printed so far. -/
structure MeterState where
  buffer : List Byte
  elapsed : ℚ
  sent : List (List Byte)
  output : List String
  deriving DecidableEq, Repr

/-- One pass of the meter loop body (src/ipk-mtrip.cc:127-137): zero the
buffer, prompt, read a line, send `m_probe_size` bytes, zero the buffer,
receive the echo, print the feedback.  `dt` is the wall-clock time the
iteration takes. -/
def meterLoopBody (probeSize : Nat) (line echoDatagram : List Byte) (dt : ℚ)
    (s : MeterState) : MeterState :=
  { buffer := meterRecvBuffer probeSize echoDatagram
    elapsed := s.elapsed + dt
    sent := s.sent ++ [meterSentDatagram probeSize line]
    output := s.output ++ meterIterationOutput probeSize echoDatagram }

/-- The guard of the meter main loop (src/ipk-mtrip.cc:125): the source is
`while (true)`.  The configured measurement duration and the elapsed time
are parameters only to record that the guard consults neither —
`m_measurment_time` is voided unused at line 140. -/
def meterLoopGuard (measurementTime elapsed : ℚ) : Bool := true

/-- Outcome of running the meter loop for a bounded number of iterations:
either control left the `while` loop, or the fuel ran out with the loop
still live. -/
inductive LoopOutcome
  | exitedLoop (s : MeterState)
  | running (s : MeterState)
  deriving DecidableEq, Repr

/-- The meter main loop (src/ipk-mtrip.cc:125-138): `while (true) { body }`.
`lines n`, `echoes n` and `dts n` are the stdin line, echoed datagram and
duration of iteration `n`.  The loop can leave only through its guard being
false; the body contains no `break`, `return` or `exit`. -/
def meterLoop (probeSize : Nat) (measurementTime : ℚ)
    (lines echoes : Nat → List Byte) (dts : Nat → ℚ) :
    Nat → Nat → MeterState → LoopOutcome
  | 0, _, s => .running s
  | fuel + 1, n, s =>
    if meterLoopGuard measurementTime s.elapsed then
      meterLoop probeSize measurementTime lines echoes dts fuel (n + 1)
        (meterLoopBody probeSize (lines n) (echoes n) (dts n) s)
    else
      .exitedLoop s

/-! ## Claims -/

/-- Claim C1 (code-bug evidence): the reflector does not echo byte-for-byte
with identical length.  At the failing input — a received datagram of one
byte `[7]` (probe size 1), the 512-byte stack buffer being zero at that
point — the echoed datagram has 512 bytes, not 1, because
`send_message(buffer, sizeof(buffer))` always transmits the whole 512-byte
buffer. -/
theorem reflector_echo_length_mismatch :
    (reflectorIteration (List.replicate 512 0) [7]).1.length = 512 ∧
    ([7] : List Byte).length = 1 ∧ (512 : Nat) ≠ 1 := by
  refine ⟨by decide, rfl, by decide⟩

/-- Claim C8: every reflector echo is exactly 512 bytes — `sizeof(buffer)`
of the fixed stack buffer — independent of how many bytes the received
datagram contained, and a datagram longer than 512 bytes is truncated to
its first 512 bytes before being echoed. -/
theorem reflector_sends_fixed_512 (buffer datagram : List Byte)
    (hb : buffer.length = 512) :
    (reflectorIteration buffer datagram).1.length = 512 ∧
    (512 < datagram.length →
      (reflectorIteration buffer datagram).1 = datagram.take 512) := by
  constructor
  · simp [reflectorIteration, recvMessage, sendMessage, hb]
    omega
  · intro h
    have h512 : min datagram.length 512 = 512 := by omega
    have hdrop : buffer.drop 512 = [] := by
      apply List.drop_eq_nil_of_le
      omega
    simp [reflectorIteration, recvMessage, sendMessage, h512, hdrop,
      List.take_take]

/-- Witness for C8 at a concrete input: a zeroed 512-byte buffer and a
600-byte datagram of threes. -/
theorem reflector_sends_fixed_512_witness :
    (List.replicate 512 (0 : Byte)).length = 512 ∧
    (reflectorIteration (List.replicate 512 0)
        (List.replicate 600 3)).1.length = 512 ∧
    (reflectorIteration (List.replicate 512 0) (List.replicate 600 3)).1 =
      (List.replicate 600 (3 : Byte)).take 512 :=
  ⟨by simp,
   (reflector_sends_fixed_512 (List.replicate 512 0) (List.replicate 600 3)
      (by simp)).1,
   (reflector_sends_fixed_512 (List.replicate 512 0) (List.replicate 600 3)
      (by simp)).2 (by simp)⟩

/-- Claim C9: the datagram the meter sends each iteration has exactly
`probe_size` bytes — `sizeof` of the variable-length probe buffer —
regardless of how many characters the operator's line contributed, so the
number of bytes sent per message is the same in every iteration. -/
theorem meter_send_length_is_probe_size (probeSize : Nat)
    (line otherLine : List Byte) :
    (meterSentDatagram probeSize line).length = probeSize ∧
    (meterSentDatagram probeSize line).length =
      (meterSentDatagram probeSize otherLine).length := by
  have key : ∀ l : List Byte,
      (meterSentDatagram probeSize l).length = probeSize := by
    intro l
    simp [meterSentDatagram, sendMessage, meterSendBuffer, List.length_take,
      List.length_append, List.length_drop, List.length_replicate]
  exact ⟨key line, by rw [key line, key otherLine]⟩

/-- Claim C7 (code-bug evidence): the meter's probe payload is not
synthetic — it is whatever the operator typed.  With probe size 4, typing
the line `ab` (bytes 97, 98, newline 10) makes the meter send
`[97, 98, 10, 0]`: not zero-filled, no embedded sequence number, and a
different typed line yields a different payload. -/
theorem meter_payload_depends_on_stdin :
    meterSentDatagram 4 [97, 98, 10] = [97, 98, 10, 0] ∧
    meterSentDatagram 4 [97, 98, 10] ≠ List.replicate 4 0 ∧
    meterSentDatagram 4 [97, 98, 10] ≠ meterSentDatagram 4 [120, 121, 10] := by
  decide

/-- Claim C2 (code-bug evidence): the meter's main loop never exits.  Its
guard is the literal `true` of `while (true)`, consulting neither the
configured measurement duration nor the elapsed time (which the state does
accumulate), and the body has no `break`, `return` or `exit`: for every
amount of fuel, every starting iteration and every starting state — in
particular states whose elapsed time already exceeds the configured
duration — control never leaves the loop. -/
theorem meter_loop_never_exits (probeSize : Nat) (measurementTime : ℚ)
    (lines echoes : Nat → List Byte) (dts : Nat → ℚ) :
    ∀ (fuel n : Nat) (s s' : MeterState),
      meterLoop probeSize measurementTime lines echoes dts fuel n s ≠
        LoopOutcome.exitedLoop s' := by
  intro fuel
  induction fuel with
  | zero =>
    intro n s s'
    simp [meterLoop]
  | succ fuel ih =>
    intro n s s'
    simp only [meterLoop, meterLoopGuard, if_true]
    exact ih (n + 1) (meterLoopBody probeSize (lines n) (echoes n) (dts n) s) s'

/-- Claim C3 (code-bug evidence): no meter run ever completes and no final
result is ever printed: the loop never exits, the code after the loop
(`(void)m_measurment_time;`) prints nothing, and each iteration prints
exactly the interactive prompt and the feedback line — never a bandwidth
estimate and never the word `inconclusive`. -/
theorem meter_never_prints_final_result :
    (∀ (probeSize : Nat) (measurementTime : ℚ)
       (lines echoes : Nat → List Byte) (dts : Nat → ℚ) (fuel n : Nat)
       (s s' : MeterState),
        meterLoop probeSize measurementTime lines echoes dts fuel n s ≠
          LoopOutcome.exitedLoop s') ∧
    meterPostLoopOutput = [] ∧
    (∀ (probeSize : Nat) (line echoDatagram : List Byte) (dt : ℚ)
       (s : MeterState),
        (meterLoopBody probeSize line echoDatagram dt s).output =
          s.output ++ ["Please enter msg: ",
            "Feedback: " ++ cDisplay (meterRecvBuffer probeSize echoDatagram)]) := by
  refine ⟨?_, rfl, ?_⟩
  · intro probeSize measurementTime lines echoes dts fuel
    induction fuel with
    | zero =>
      intro n s s'
      simp [meterLoop]
    | succ fuel ih =>
      intro n s s'
      simp only [meterLoop, meterLoopGuard, if_true]
      exact ih (n + 1) (meterLoopBody probeSize (lines n) (echoes n) (dts n) s) s'
  · intro probeSize line echoDatagram dt s
    simp [meterLoopBody, meterIterationOutput]

/-- Claim C4 (counterexample): the invocation
`ipk-mtrip meter -h localhost -p 9000 -s 0 -t 0` is accepted — the parser
constructs a `Meter` configuration with probe size 0 and duration 0 and
`main` proceeds into `init()` (the socket work) — so accepted
configurations are not guaranteed probe size > 0 or duration > 0 and no
rejection happens before socket work. -/
theorem parser_accepts_zero_probe_size :
    argumentParse ["ipk-mtrip", "meter", "-h", "localhost", "-p", "9000",
        "-s", "0", "-t", "0"] = ParseResult.meterCfg "localhost" 9000 0 0 ∧
    mainOutcome ["ipk-mtrip", "meter", "-h", "localhost", "-p", "9000",
        "-s", "0", "-t", "0"] = ProcOutcome.enteredInit ∧
    ¬ (0 < (0 : Nat)) := by
  refine ⟨by decide, by decide, by decide⟩

/-- Claim C4 (amended): accepted configurations carry no guarantee that
probe size or duration is positive, because the parser applies no bounds
check to option values.  For every meter invocation of the shape
`ipk-mtrip meter -h H -p P -s S -t T` (each option followed by its value),
whatever the four value strings are, the parser accepts it — the values
pass through `atoi`/`atof` unchecked, so `S = "0"` yields probe size 0 and
`T = "0"` yields duration 0 — and `main` proceeds into `init()` and the
socket work. -/
theorem parser_accepts_all_flag_complete_meter_invocations
    (hv pv sv tv : String) :
    argumentParse ["ipk-mtrip", "meter", "-h", hv, "-p", pv, "-s", sv,
        "-t", tv] =
      ParseResult.meterCfg hv (cUShort (atoi pv)) (cSizeT (atoi sv))
        (atof tv) ∧
    mainOutcome ["ipk-mtrip", "meter", "-h", hv, "-p", pv, "-s", sv,
        "-t", tv] = ProcOutcome.enteredInit :=
  ⟨rfl, rfl⟩

/-- Claim C5 (counterexample): the invocation `ipk-mtrip reflect a b` omits
the required `-p` option; the parser rejects it and the process exits with
`EXIT_FAILURE`, but the diagnostic is the generic
`Required option not passed in.`, which does not name `-p`. -/
theorem missing_port_diag_lacks_option_name :
    argumentParse ["ipk-mtrip", "reflect", "a", "b"] =
      ParseResult.noConfig "Required option not passed in." ∧
    mainOutcome ["ipk-mtrip", "reflect", "a", "b"] =
      ProcOutcome.exited EXIT_FAILURE ∧
    ¬ (['-', 'p'] <:+: "Required option not passed in.".toList) := by
  refine ⟨by decide, by decide, by decide⟩

/-- Claim C5 (amended): a missing or invalid required option always makes
the process exit with a non-zero status, and the diagnostic names the
offending option in the getopt missing-argument branch (for example
`Option -p requires an argument.` for `ipk-mtrip meter -h x -p`), but a
required flag absent altogether yields only a generic diagnostic. -/
theorem parse_failure_exit_nonzero (args : List String) (d : String) :
    (argumentParse args = ParseResult.noConfig d →
      mainOutcome args = ProcOutcome.exited EXIT_FAILURE ∧
        EXIT_FAILURE ≠ 0) ∧
    (argumentParse args = ParseResult.exitNow d →
      mainOutcome args = ProcOutcome.exited 1 ∧ (1 : Nat) ≠ 0) ∧
    argumentParse ["ipk-mtrip", "meter", "-h", "x", "-p"] =
      ParseResult.exitNow "Option -p requires an argument." := by
  refine ⟨?_, ?_, by decide⟩
  · intro h
    exact ⟨by simp [mainOutcome, h], by decide⟩
  · intro h
    exact ⟨by simp [mainOutcome, h], by decide⟩

/-- Witness for the amended C5 at a concrete input: `ipk-mtrip reflect x y`
fails to parse and the process exits non-zero. -/
theorem parse_failure_exit_nonzero_witness :
    mainOutcome ["ipk-mtrip", "reflect", "x", "y"] =
      ProcOutcome.exited EXIT_FAILURE ∧ EXIT_FAILURE ≠ 0 :=
  (parse_failure_exit_nonzero ["ipk-mtrip", "reflect", "x", "y"]
    "Required option not passed in.").1 (by decide)

/-- Claim C6: the interrupt handler calls `exit(EXIT_SUCCESS)` whatever
signal it catches — so an operator interrupt during either loop ends the
process with status 0 — while every argument-parse failure (null
configuration returned, or `exit(1)` inside the option switch) ends the
process with a non-zero status. -/
theorem exit_code_contract (signum : Nat) (args : List String) (d : String) :
    interruptExitCode signum = 0 ∧
    (argumentParse args = ParseResult.noConfig d →
      ∃ code, mainOutcome args = ProcOutcome.exited code ∧ code ≠ 0) ∧
    (argumentParse args = ParseResult.exitNow d →
      ∃ code, mainOutcome args = ProcOutcome.exited code ∧ code ≠ 0) := by
  refine ⟨rfl, ?_, ?_⟩
  · intro h
    exact ⟨EXIT_FAILURE, by simp [mainOutcome, h], by decide⟩
  · intro h
    exact ⟨1, by simp [mainOutcome, h], by decide⟩

/-- Witness for C6 at concrete inputs: signal 2 (SIGINT) exits with 0, and
the undefined-mode invocation `ipk-mtrip xyz a b` exits non-zero. -/
theorem exit_code_contract_witness :
    interruptExitCode 2 = 0 ∧
    ∃ code, mainOutcome ["ipk-mtrip", "xyz", "a", "b"] =
      ProcOutcome.exited code ∧ code ≠ 0 :=
  ⟨(exit_code_contract 2 ["ipk-mtrip", "xyz", "a", "b"]
      "Undefined mode inside an argument passed to the application.").1,
   (exit_code_contract 2 ["ipk-mtrip", "xyz", "a", "b"]
      "Undefined mode inside an argument passed to the application.").2.1
     (by decide)⟩

/-- Claim C10: every invocation with fewer than 4 argv entries is rejected
by the up-front `argc < 4` check — before any mode-specific option
processing — with the generic diagnostic, and the process exits with
`EXIT_FAILURE`. -/
theorem short_argv_rejected (args : List String) (h : args.length < 4) :
    argumentParse args = ParseResult.noConfig "Wrong number of arguments." ∧
    mainOutcome args = ProcOutcome.exited EXIT_FAILURE := by
  have hp : argumentParse args =
      ParseResult.noConfig "Wrong number of arguments." := by
    simp [argumentParse, h]
  exact ⟨hp, by simp [mainOutcome, hp]⟩

/-- Witness for C10 at a concrete input: `ipk-mtrip reflect -p9000`, whose
option value is attached to its flag, has only 3 argv entries and is
rejected up front. -/
theorem short_argv_rejected_witness :
    (["ipk-mtrip", "reflect", "-p9000"] : List String).length < 4 ∧
    argumentParse ["ipk-mtrip", "reflect", "-p9000"] =
      ParseResult.noConfig "Wrong number of arguments." ∧
    mainOutcome ["ipk-mtrip", "reflect", "-p9000"] =
      ProcOutcome.exited EXIT_FAILURE :=
  ⟨by decide,
   (short_argv_rejected ["ipk-mtrip", "reflect", "-p9000"] (by decide)).1,
   (short_argv_rejected ["ipk-mtrip", "reflect", "-p9000"] (by decide)).2⟩

end MTrip
